import Mathlib

/-!
Verification of the SwarmIRC client (src/public/swarmirc.py) and the
Discord bridge relay (src/tools/discord-bridge.py).

The Python code is shallowly embedded: strings are Lean `String`s
(manipulated through their underlying `List Char`), the two regular
expressions used by `_parse_line` are hand-compiled to equivalent
maximal-munch scanners (the patterns are backtracking-free: each
greedy `+` piece is followed by a piece starting with a character of
the complementary class, so the maximal match is the only candidate),
handler invocation with Python's bare try/except is modelled by a
state-transforming function whose raised-exception flag is discarded
by the dispatcher, and the websocket transport is modelled by a script
of inbound messages.
-/

/-- Python whitespace, as recognized both by `str.strip()` and by the
regex class on the ASCII lines this protocol carries. -/
def pyWs (c : Char) : Bool :=
  c == ' ' || c == '\t' || c == '\n' || c == '\r' || c == '\x0b' || c == '\x0c'

/-- Remove trailing Python whitespace from a character list. -/
def dropTrailWs (cs : List Char) : List Char :=
  (cs.reverse.dropWhile pyWs).reverse

/-- Python `str.strip()` on a character list. -/
def pyStripL (cs : List Char) : List Char :=
  dropTrailWs (cs.dropWhile pyWs)

/-- Python `str.strip()`. -/
def pyStrip (s : String) : String :=
  String.mk (pyStripL s.data)

/-- Boolean character-list prefix test. -/
def isPreL : List Char → List Char → Bool
  | [], _ => true
  | _ :: _, [] => false
  | a :: as, b :: bs => a == b && isPreL as bs

/-- Python `needle in haystack` substring test. -/
def containsL (needle : List Char) : List Char → Bool
  | [] => isPreL needle []
  | c :: rest => isPreL needle (c :: rest) || containsL needle rest

/-- Python `s.startswith(p)`. -/
def pyStartsWith (s p : String) : Bool :=
  isPreL p.data s.data

/-- The outer regex of `_parse_line` (swarmirc.py line 131):
`re.match(r'^:(\S+)\s+(\S+)\s+(.*)', line)`, returning the three capture
groups (sender prefix, command, params).  `.` does not match a newline,
so the params group stops at the first `'\n'`. -/
def reOuter (cs : List Char) : Option (List Char × List Char × List Char) :=
  match cs with
  | ':' :: rest =>
    let pfx := rest.takeWhile (fun c => !pyWs c)
    let r1 := rest.dropWhile (fun c => !pyWs c)
    if pfx.isEmpty then none
    else if (r1.takeWhile pyWs).isEmpty then none
    else
      let r2 := r1.dropWhile pyWs
      let command := r2.takeWhile (fun c => !pyWs c)
      let r3 := r2.dropWhile (fun c => !pyWs c)
      if command.isEmpty then none
      else if (r3.takeWhile pyWs).isEmpty then none
      else
        let r4 := r3.dropWhile pyWs
        some (pfx, command, r4.takeWhile (fun c => !(c == '\n')))
  | _ => none

/-- The inner regex used for PRIVMSG, QUERY and CMD params
(swarmirc.py lines 143, 162, 171):
`re.match(r'^(\S+)\s+:(.*)', params, re.DOTALL)`, returning the first
token and everything after the colon (DOTALL: including newlines). -/
def reTrailing (cs : List Char) : Option (List Char × List Char) :=
  let tok := cs.takeWhile (fun c => !pyWs c)
  let r1 := cs.dropWhile (fun c => !pyWs c)
  if tok.isEmpty then none
  else if (r1.takeWhile pyWs).isEmpty then none
  else
    match r1.dropWhile pyWs with
    | ':' :: body => some (tok, body)
    | _ => none

/-- The PART params match (swarmirc.py line 155):
`m = re.match(r'^(\S+)', params); channel = m.group(1) if m else params`. -/
def rePartTok (cs : List Char) : List Char :=
  let tok := cs.takeWhile (fun c => !pyWs c)
  if tok.isEmpty then cs else tok

/-- `prefix.split('!')[0]` (swarmirc.py line 140): the sender nick is the
part of the prefix before the first `'!'`. -/
def splitBang (cs : List Char) : List Char :=
  cs.takeWhile (fun c => !(c == '!'))

/-- Structured events dispatched by `_parse_line`, plus the raw event fired
for every non-blank line. -/
inductive Event where
  | message (sender target body : String)
  | join (nick channel : String)
  | part (nick channel : String)
  | query (sender queryType payload : String)
  | cmd (sender command args : String)
  | raw (line : String)
deriving DecidableEq

/-- The structured event produced from an already-stripped, non-empty line,
following the `if/elif` chain of `_parse_line` (swarmirc.py lines 131-180). -/
def parsedEventL (l : List Char) : Option Event :=
  match reOuter l with
  | none => none
  | some (pfx, command, params) =>
    if command = "PRIVMSG".data then
      match reTrailing params with
      | some (tok, body) =>
        some (Event.message (String.mk (splitBang pfx)) (String.mk tok) (String.mk body))
      | none => none
    else if command = "JOIN".data then
      some (Event.join (String.mk (splitBang pfx)) (String.mk (pyStripL params)))
    else if command = "PART".data then
      some (Event.part (String.mk (splitBang pfx)) (String.mk (rePartTok params)))
    else if command = "QUERY".data then
      match reTrailing params with
      | some (tok, payload) =>
        some (Event.query (String.mk (splitBang pfx)) (String.mk tok) (String.mk payload))
      | none => none
    else if command = "CMD".data then
      match reTrailing params with
      | some (tok, args) =>
        some (Event.cmd (String.mk (splitBang pfx)) (String.mk tok) (String.mk args))
      | none => none
    else none

/-- The structured event (if any) produced by `_parse_line` for a raw
inbound line: the line is stripped first; blank lines produce nothing. -/
def parsedEvent (line : String) : Option Event :=
  if (pyStripL line.data).isEmpty then none
  else parsedEventL (pyStripL line.data)

/-- The per-kind handler registries of a `SwarmIRC` instance
(`self._handlers`, swarmirc.py lines 33-42).  A handler is modelled as a
state transformer returning its effect on the observable state together
with a flag telling whether it raised; `_parse_line` wraps every call in
`try/except: pass`, so the dispatcher discards the flag. -/
structure Handlers (σ : Type) where
  message : List (String → String → String → σ → σ × Bool)
  join : List (String → String → σ → σ × Bool)
  part : List (String → String → σ → σ × Bool)
  quit : List (String → String → σ → σ × Bool)
  topic : List (String → String → σ → σ × Bool)
  query : List (String → String → String → σ → σ × Bool)
  cmd : List (String → String → String → σ → σ × Bool)
  raw : List (String → σ → σ × Bool)

/-- Fire all one-argument handlers in registration order, swallowing the
raised flag of each invocation (`try: h(line) except: pass`). -/
def fire1 {σ : Type} (hs : List (String → σ → σ × Bool)) (a : String) (st : σ) : σ :=
  hs.foldl (fun acc h => (h a acc).1) st

/-- Fire all two-argument handlers in registration order, swallowing raises. -/
def fire2 {σ : Type} (hs : List (String → String → σ → σ × Bool)) (a b : String) (st : σ) : σ :=
  hs.foldl (fun acc h => (h a b acc).1) st

/-- Fire all three-argument handlers in registration order, swallowing raises. -/
def fire3 {σ : Type} (hs : List (String → String → String → σ → σ × Bool))
    (a b c : String) (st : σ) : σ :=
  hs.foldl (fun acc h => (h a b c acc).1) st

/-- The command-matching and structured-handler part of `_parse_line`
(swarmirc.py lines 131-180), applied after the raw handlers have fired:
match the outer regex, then walk the `if/elif` chain, firing the handlers
of the single matching command. -/
def dispatchParsed {σ : Type} (H : Handlers σ) (l : List Char) (st : σ) : σ :=
  match reOuter l with
  | none => st
  | some (pfx, command, params) =>
    if command = "PRIVMSG".data then
      match reTrailing params with
      | some (tok, body) =>
        fire3 H.message (String.mk (splitBang pfx)) (String.mk tok) (String.mk body) st
      | none => st
    else if command = "JOIN".data then
      fire2 H.join (String.mk (splitBang pfx)) (String.mk (pyStripL params)) st
    else if command = "PART".data then
      fire2 H.part (String.mk (splitBang pfx)) (String.mk (rePartTok params)) st
    else if command = "QUERY".data then
      match reTrailing params with
      | some (tok, payload) =>
        fire3 H.query (String.mk (splitBang pfx)) (String.mk tok) (String.mk payload) st
      | none => st
    else if command = "CMD".data then
      match reTrailing params with
      | some (tok, args) =>
        fire3 H.cmd (String.mk (splitBang pfx)) (String.mk tok) (String.mk args) st
      | none => st
    else st

/-- `_parse_line` on an already-stripped, non-blank line: fire every raw
handler first (swarmirc.py lines 127-129), then dispatch the structured
event, if any. -/
def dispatchStripped {σ : Type} (H : Handlers σ) (l : List Char) (st : σ) : σ :=
  dispatchParsed H l (fire1 H.raw (String.mk l) st)

/-- `SwarmIRC._parse_line` (swarmirc.py lines 122-180): strip the line,
return immediately if blank, otherwise fire raw handlers and dispatch. -/
def parseLineDispatch {σ : Type} (H : Handlers σ) (line : String) (st : σ) : σ :=
  if (pyStripL line.data).isEmpty then st
  else dispatchStripped H (pyStripL line.data) st

/-- A registry of logging handlers, one per kind, each appending the event
it observes and never raising.  Used to observe which handlers
`_parse_line` invokes and in which order. -/
def logH : Handlers (List Event) :=
  Handlers.mk
    [fun s t m log => (log ++ [Event.message s t m], false)]
    [fun n c log => (log ++ [Event.join n c], false)]
    [fun n c log => (log ++ [Event.part n c], false)]
    []
    []
    [fun s q d log => (log ++ [Event.query s q d], false)]
    [fun s c a log => (log ++ [Event.cmd s c a], false)]
    [fun l log => (log ++ [Event.raw l], false)]

/-- The sequence of handler invocations `_parse_line` performs on a line,
observed through the logging registry. -/
def firedEvents (line : String) : List Event :=
  parseLineDispatch logH line []

/-- Channel-name normalization applied by `join`, `part`, `who` and
`set_topic` (swarmirc.py lines 84-85 etc.): prepend `'#'` when missing. -/
def normChan (channel : String) : String :=
  if pyStartsWith channel "#" then channel else "#" ++ channel

/-- Wire line emitted by `join` (swarmirc.py line 86). -/
def encodeJoin (channel : String) : String :=
  "JOIN " ++ normChan channel

/-- Wire line emitted by `part` (swarmirc.py line 92). -/
def encodePart (channel reason : String) : String :=
  "PART " ++ normChan channel ++ " :" ++ reason

/-- Wire line emitted by `send` (swarmirc.py line 96); note that `send`
performs no channel normalization on its target. -/
def encodeSend (target message : String) : String :=
  "PRIVMSG " ++ target ++ " :" ++ message

/-- The action-relevant state of a `SwarmIRC` instance: whether a
websocket handle exists (`self.ws`), the local membership set
(`self.channels`, modelled as a duplicate-free list), and the log of
lines actually handed to the transport. -/
structure Client where
  ws : Bool
  channels : List String
  sent : List String
deriving DecidableEq

/-- Python `set.add`. -/
def setAdd (l : List String) (x : String) : List String :=
  if x ∈ l then l else l ++ [x]

/-- Python `set.discard`. -/
def setDiscard (l : List String) (x : String) : List String :=
  l.filter (fun y => y != x)

/-- `SwarmIRC._send` (swarmirc.py lines 79-81): transmit only when a
websocket handle exists, otherwise do nothing. -/
def Client.sendRaw (c : Client) (msg : String) : Client :=
  if c.ws then { c with sent := c.sent ++ [msg] } else c

/-- `SwarmIRC.join` (swarmirc.py lines 83-87): normalize, send JOIN, then
add the normalized channel to the local membership set. -/
def Client.join (c : Client) (channel : String) : Client :=
  { c.sendRaw (encodeJoin channel) with channels := setAdd c.channels (normChan channel) }

/-- `SwarmIRC.part` (swarmirc.py lines 89-93): normalize, send PART, then
discard the normalized channel from the local membership set. -/
def Client.part (c : Client) (channel reason : String) : Client :=
  { c.sendRaw (encodePart channel reason) with channels := setDiscard c.channels (normChan channel) }

/-- `SwarmIRC.send` (swarmirc.py lines 95-96). -/
def Client.send (c : Client) (target message : String) : Client :=
  c.sendRaw (encodeSend target message)

/-- `SwarmIRC.who` (swarmirc.py lines 98-101). -/
def Client.who (c : Client) (channel : String) : Client :=
  c.sendRaw ("WHO " ++ normChan channel)

/-- `SwarmIRC.whois` (swarmirc.py lines 103-104). -/
def Client.whois (c : Client) (nick : String) : Client :=
  c.sendRaw ("WHOIS " ++ nick)

/-- `SwarmIRC.list_channels` (swarmirc.py lines 106-107). -/
def Client.listChannels (c : Client) : Client :=
  c.sendRaw "LIST"

/-- `SwarmIRC.query` (swarmirc.py lines 109-110). -/
def Client.query (c : Client) (nick queryType : String) : Client :=
  c.sendRaw ("QUERY " ++ nick ++ " " ++ queryType)

/-- `SwarmIRC.register_command` (swarmirc.py lines 112-113). -/
def Client.registerCommand (c : Client) (command description : String) : Client :=
  c.sendRaw ("REGISTER " ++ command ++ " :" ++ description)

/-- `SwarmIRC.set_topic` (swarmirc.py lines 115-118). -/
def Client.setTopic (c : Client) (channel topic : String) : Client :=
  c.sendRaw ("TOPIC " ++ normChan channel ++ " :" ++ topic)

/-- Identity state driven by `SwarmIRC.connect` (swarmirc.py lines 184-207):
`self.name` and `self.authenticated`. -/
structure ConnState where
  name : Option String
  authenticated : Bool
deriving DecidableEq

/-- The literal part of the welcome pattern
`re.search(r'Welcome to ClawSwarm, (\S+)!', line)`. -/
def welcomeLit : List Char :=
  "Welcome to ClawSwarm, ".data

/-- Longest prefix of a character run that is followed by a `'!'` inside
the run: the backtracking-greedy capture of `(\S+)!` applied to the
maximal non-whitespace run, which matches up to the last `'!'`. -/
def bangSplitAux : List Char → Option (List Char)
  | [] => none
  | c :: rest =>
    match bangSplitAux rest with
    | some t => some (c :: t)
    | none => if c == '!' then some [] else none

/-- Try the welcome pattern anchored at the start of `cs`: the literal,
then a non-empty `(\S+)` capture, then `'!'`. -/
def matchWelcomeAt (cs : List Char) : Option (List Char) :=
  if isPreL welcomeLit cs then
    match bangSplitAux ((cs.drop welcomeLit.length).takeWhile (fun c => !pyWs c)) with
    | some t => if t.isEmpty then none else some t
    | none => none
  else none

/-- `re.search(r'Welcome to ClawSwarm, (\S+)!', line)` (swarmirc.py
line 199): leftmost starting position at which the pattern matches. -/
def searchWelcomeL : List Char → Option (List Char)
  | [] => none
  | c :: rest =>
    match matchWelcomeAt (c :: rest) with
    | some t => some t
    | none => searchWelcomeL rest

/-- `'001' in line` on the stripped line (swarmirc.py line 197). -/
def has001B (msg : String) : Bool :=
  containsL "001".data (pyStripL msg.data)

/-- `'376' in line or '422' in line` on the stripped line
(swarmirc.py line 203). -/
def hasTermB (msg : String) : Bool :=
  containsL "376".data (pyStripL msg.data) || containsL "422".data (pyStripL msg.data)

/-- One iteration of the auth-response loop of `connect` (swarmirc.py
lines 195-202) without its exit test: strip the message, and if it
contains `'001'`, extract the name from the welcome pattern when present
and set `authenticated`. -/
def stepLine (st : ConnState) (msg : String) : ConnState :=
  if has001B msg then
    match searchWelcomeL (pyStripL msg.data) with
    | some n => { st with name := some (String.mk n), authenticated := true }
    | none => { st with authenticated := true }
  else st

/-- The auth-response loop of `connect` (swarmirc.py lines 195-205) run
against a script of inbound messages: process each message with
`stepLine`, stopping after the first message whose stripped form contains
`'376'` or `'422'`.  `none` models a connection that never reaches the end
of the greeting (the loop blocks forever on `recv`). -/
def authLoop : List String → ConnState → Option ConnState
  | [], _ => none
  | msg :: rest, st =>
    if hasTermB msg then some (stepLine st msg) else authLoop rest (stepLine st msg)

/-- `SwarmIRC.connect` (swarmirc.py lines 184-207) against a scripted
transport: the first inbound message (the server banner) is read and
discarded, AUTH is sent, then the auth-response loop runs.  The final
`ConnState` carries the data `connect` leaves behind; its `authenticated`
field is the boolean `connect` returns. -/
def connectModel (script : List String) : Option ConnState :=
  match script with
  | [] => none
  | _banner :: rest => authLoop rest { name := none, authenticated := false }

/-- An inbound message from the Discord side of the bridge, restricted to
the fields `on_message` inspects (discord-bridge.py lines 70-90). -/
structure DMessage where
  authorBot : Bool
  authorDisplayName : String
  isGuild : Bool
  channelId : Nat
  content : String
deriving DecidableEq

/-- Python `dict` lookup on the bridged-channel mapping
(`discord_channel_id -> swarmirc_channel`). -/
def dictLookup : List (Nat × String) → Nat → Option String
  | [], _ => none
  | (k, v) :: rest, key => if k = key then some v else dictLookup rest key

/-- The reverse lookup loop of `on_swarm_message` (discord-bridge.py
lines 109-113): first mapping entry whose SwarmIRC channel equals the
wanted one. -/
def lookupByValue : List (Nat × String) → String → Option Nat
  | [], _ => none
  | (k, v) :: rest, val => if v = val then some k else lookupByValue rest val

/-- The body of the bridge's Discord-side `on_message` handler as written
(discord-bridge.py lines 72-90): skip bot-authored and non-guild messages,
drop unmapped channels, otherwise produce the SwarmIRC send
`(target, content)` with the `[Discord/name] ` origin tag prepended.
`none` means no outbound SwarmIRC send is attempted.  This body is what
would run IF the handler were ever entered; see `onDiscordMessage` for the
dispatch that actually invokes it. -/
def onDiscordMessageBody (bridged : List (Nat × String)) (m : DMessage) :
    Option (String × String) :=
  if m.authorBot || !m.isGuild then none
  else
    match dictLookup bridged m.channelId with
    | none => none
    | some swarmChannel =>
      some ("#" ++ swarmChannel, "[Discord/" ++ m.authorDisplayName ++ "] " ++ m.content)

/-- Number of positional parameters declared by the bridge's Discord
`on_message` handler: `async def on_message(self, message)`
(discord-bridge.py line 71) declares two, although the function is
registered as a plain event callback via `@self.discord.event`. -/
def onMessageParamCount : Nat := 2

/-- The bridge's Discord-side `on_message` handler as actually dispatched.
discord.py's event dispatch calls the registered function with exactly one
positional argument (the message).  Binding one argument against a
different number of required positional parameters raises TypeError before
the handler body runs, and exceptions escaping an event handler are
swallowed by discord.py's default `on_error`; only a one-parameter handler
would reach the body.  With the spurious `self` parameter declared at
discord-bridge.py line 71, every dispatch fails and no Discord message
ever produces a SwarmIRC send. -/
def onDiscordMessage (bridged : List (Nat × String)) (m : DMessage) : Option (String × String) :=
  if onMessageParamCount = 1 then onDiscordMessageBody bridged m else none

/-- The bridge's SwarmIRC-side `on_swarm_message` handler logic
(discord-bridge.py lines 92-124): only channel messages, skip self-echo,
skip bodies already tagged `[Discord/`, reverse-resolve the channel, and
send to Discord when the channel object exists.  Python's
`if not discord_channel_id` is falsy for the id 0 as well as for `None`,
so a mapping entry with Discord id 0 is treated as unmapped.  `getChannel`
models `self.discord.get_channel` returning a usable channel object.
`none` means no outbound Discord send is attempted. -/
def onSwarmMessage (bridged : List (Nat × String)) (selfName : Option String)
    (getChannel : Nat → Bool) (sender target content : String) : Option (Nat × String) :=
  if !(pyStartsWith target "#") then none
  else if selfName = some sender then none
  else if pyStartsWith content "[Discord/" then none
  else
    match lookupByValue bridged (String.mk (target.data.drop 1)) with
    | none => none
    | some discordChannelId =>
      if discordChannelId = 0 then none
      else if getChannel discordChannelId then
        some (discordChannelId, "**[SwarmIRC/" ++ sender ++ "]** " ++ content)
      else none

/-- A message handler that appends its index to a log and raises exactly
when its index is 2; used to witness handler isolation. -/
def wH (i : Nat) : String → String → String → List Nat → List Nat × Bool :=
  fun _ _ _ log => (log ++ [i], i == 2)

/-- Fire the handlers registered for a structured event's kind, passing the
event's fields in order. -/
def fireEvent {σ : Type} (H : Handlers σ) (ev : Event) (st : σ) : σ :=
  match ev with
  | Event.message s t m => fire3 H.message s t m st
  | Event.join n c => fire2 H.join n c st
  | Event.part n c => fire2 H.part n c st
  | Event.query s q d => fire3 H.query s q d st
  | Event.cmd s c a => fire3 H.cmd s c a st
  | Event.raw _ => st

theorem takeWhile_append_cons (p : Char → Bool) (l1 : List Char) (c : Char) (l2 : List Char)
    (h1 : ∀ x ∈ l1, p x = true) (hc : p c = false) :
    (l1 ++ c :: l2).takeWhile p = l1 := by
  induction l1 with
  | nil => simp [List.takeWhile_cons, hc]
  | cons a as ih =>
    have ha : p a = true := h1 a (by simp)
    simp only [List.cons_append, List.takeWhile_cons, ha, if_true]
    rw [ih (fun x hx => h1 x (by simp [hx]))]

theorem dropWhile_append_cons (p : Char → Bool) (l1 : List Char) (c : Char) (l2 : List Char)
    (h1 : ∀ x ∈ l1, p x = true) (hc : p c = false) :
    (l1 ++ c :: l2).dropWhile p = c :: l2 := by
  induction l1 with
  | nil => simp [List.dropWhile_cons, hc]
  | cons a as ih =>
    have ha : p a = true := h1 a (by simp)
    simp only [List.cons_append, List.dropWhile_cons, ha, if_true]
    exact ih (fun x hx => h1 x (by simp [hx]))

theorem takeWhile_of_all (p : Char → Bool) (l : List Char) (h : ∀ x ∈ l, p x = true) :
    l.takeWhile p = l := by
  induction l with
  | nil => rfl
  | cons a as ih =>
    have ha : p a = true := h a (by simp)
    simp only [List.takeWhile_cons, ha, if_true]
    rw [ih (fun x hx => h x (by simp [hx]))]

theorem isPreL_append (l1 l2 s : List Char) (h : isPreL (l1 ++ l2) s = true) :
    isPreL l1 s = true := by
  induction l1 generalizing s with
  | nil => rfl
  | cons a as ih =>
    cases s with
    | nil => simp [isPreL] at h
    | cons b bs =>
      simp only [List.cons_append, isPreL, Bool.and_eq_true] at h ⊢
      exact ⟨h.1, ih bs h.2⟩

theorem strData_append (a b : String) : (a ++ b).data = a.data ++ b.data := rfl

theorem pyStripL_eq_self (l : List Char)
    (h1 : ∀ c, l.head? = some c → pyWs c = false)
    (h2 : ∀ c, l.getLast? = some c → pyWs c = false) :
    pyStripL l = l := by
  have hdrop : l.dropWhile pyWs = l := by
    cases l with
    | nil => rfl
    | cons a as => simp [List.dropWhile_cons, h1 a rfl]
  unfold pyStripL dropTrailWs
  rw [hdrop]
  cases hr : l.reverse with
  | nil =>
    have : l = [] := by simpa using congrArg List.reverse hr
    simp [this]
  | cons a as =>
    have hha : l.getLast? = some a := by
      rw [← List.head?_reverse, hr]
      rfl
    have hpw : pyWs a = false := h2 a hha
    simp only [List.dropWhile_cons, hpw, Bool.false_eq_true, if_false]
    simpa using (congrArg List.reverse hr).symm

theorem dispatchParsed_eq {σ : Type} (H : Handlers σ) (l : List Char) (st : σ) :
    dispatchParsed H l st =
      match parsedEventL l with
      | none => st
      | some ev => fireEvent H ev st := by
  unfold dispatchParsed parsedEventL
  cases hO : reOuter l with
  | none => rfl
  | some trip =>
    obtain ⟨pfx, command, params⟩ := trip
    by_cases h1 : command = "PRIVMSG".data
    · simp only [h1, if_true]
      cases reTrailing params with
      | none => rfl
      | some pr => cases pr; rfl
    · simp only [h1, if_false]
      by_cases h2 : command = "JOIN".data
      · simp [h2, fireEvent]
      · simp only [h2, if_false]
        by_cases h3 : command = "PART".data
        · simp [h3, fireEvent]
        · simp only [h3, if_false]
          by_cases h4 : command = "QUERY".data
          · simp only [h4, if_true]
            cases reTrailing params with
            | none => rfl
            | some pr => cases pr; rfl
          · simp only [h4, if_false]
            by_cases h5 : command = "CMD".data
            · simp only [h5, if_true]
              cases reTrailing params with
              | none => rfl
              | some pr => cases pr; rfl
            · simp [h5]

theorem parsedEventL_ne_raw (l : List Char) (e : Event) (h : parsedEventL l = some e) :
    ∀ s, e ≠ Event.raw s := by
  intro s hcon
  subst hcon
  unfold parsedEventL at h
  split at h
  · simp at h
  · split_ifs at h
    all_goals first
      | simp at h
      | (split at h <;> simp at h)

theorem pyStartsWith_hash_append (s : String) : pyStartsWith ("#" ++ s) "#" = true := by
  have hd : ("#" ++ s).data = '#' :: s.data := rfl
  simp [pyStartsWith, hd, isPreL]

/-- Claim C1: loop prevention holds in both directions.  A SwarmIRC
Message whose body starts with the tag the relay injects in the
Discord-to-SwarmIRC direction (`[Discord/name] ` for any name) is never
forwarded to Discord, by the explicit `content.startswith('[Discord/')`
guard in `on_swarm_message`.  A Discord message carrying the tag injected
in the SwarmIRC-to-Discord direction (`**[SwarmIRC/name]** ` for any name)
never produces a SwarmIRC send — indeed no Discord message does, since the
`on_message` handler declares a spurious `self` parameter and discord.py's
one-argument event dispatch raises TypeError before the handler body runs. -/
theorem c1_loop_prevention (bridged : List (Nat × String)) (selfName : Option String)
    (getChannel : Nat → Bool) (sender target content dTag sTag : String) (m : DMessage) :
    (pyStartsWith content ("[Discord/" ++ dTag ++ "] ") = true →
      onSwarmMessage bridged selfName getChannel sender target content = none) ∧
    (pyStartsWith m.content ("**[SwarmIRC/" ++ sTag ++ "]** ") = true →
      onDiscordMessage bridged m = none) := by
  constructor
  · intro h
    have hpre : pyStartsWith content "[Discord/" = true := by
      unfold pyStartsWith at h ⊢
      have hd : ("[Discord/" ++ dTag ++ "] ").data =
          ("[Discord/" : String).data ++ (dTag.data ++ ("] " : String).data) := by
        simp [strData_append, List.append_assoc]
      rw [hd] at h
      exact isPreL_append _ _ _ h
    simp [onSwarmMessage, hpre]
  · intro _
    simp [onDiscordMessage, onMessageParamCount]

theorem c1_loop_prevention_witness :
    (pyStartsWith "[Discord/bob] hi" ("[Discord/" ++ "bob" ++ "] ") = true ∧
     pyStartsWith "**[SwarmIRC/alice]** hi" ("**[SwarmIRC/" ++ "alice" ++ "]** ") = true) ∧
    (onSwarmMessage [(5, "general")] (some "me") (fun _ => true)
      "alice" "#general" "[Discord/bob] hi" = none ∧
     onDiscordMessage [(5, "general")]
       (DMessage.mk false "human" true 5 "**[SwarmIRC/alice]** hi") = none) :=
  ⟨⟨by decide, by decide⟩,
   ⟨(c1_loop_prevention [(5, "general")] (some "me") (fun _ => true)
      "alice" "#general" "[Discord/bob] hi" "bob" "alice"
      (DMessage.mk false "human" true 5 "**[SwarmIRC/alice]** hi")).1 (by decide),
    (c1_loop_prevention [(5, "general")] (some "me") (fun _ => true)
      "alice" "#general" "[Discord/bob] hi" "bob" "alice"
      (DMessage.mk false "human" true 5 "**[SwarmIRC/alice]** hi")).2 (by decide)⟩⟩

/-- Claim C2 (counterexample): the round-trip claim fails for `send`:
`send` performs no channel normalization, so the wire output for
`"general"` and `"#general"` differs. -/
theorem c2_normalization_counterexample :
    encodeSend "general" "hi" ≠ encodeSend "#general" "hi" := by
  decide

/-- Claim C2 (amended): `join` and `part` normalize their channel argument,
so for a channel without a leading `'#'` the wire output for `c` and
`"#" ++ c` is identical; `send` emits its target verbatim, so its wire
output for `c` and `"#" ++ c` always differs. -/
theorem c2_normalization_amended (c reason message : String)
    (h : pyStartsWith c "#" = false) :
    encodeJoin c = encodeJoin ("#" ++ c) ∧
    encodePart c reason = encodePart ("#" ++ c) reason ∧
    encodeSend c message ≠ encodeSend ("#" ++ c) message := by
  have hn : normChan c = "#" ++ c := by
    simp [normChan, h]
  have hn2 : normChan ("#" ++ c) = "#" ++ c := by
    simp [normChan, pyStartsWith_hash_append]
  refine ⟨?_, ?_, ?_⟩
  · simp [encodeJoin, hn, hn2]
  · simp [encodePart, hn, hn2]
  · intro heq
    have hlen := congrArg (fun s => s.data.length) heq
    have e1 : ("PRIVMSG " : String).data.length = 8 := rfl
    have e2 : ("#" : String).data.length = 1 := rfl
    simp only [encodeSend, strData_append, List.length_append, e1, e2] at hlen
    omega

theorem c2_normalization_witness :
    pyStartsWith "general" "#" = false ∧
    (encodeJoin "general" = encodeJoin ("#" ++ "general") ∧
     encodePart "general" "" = encodePart ("#" ++ "general") "" ∧
     encodeSend "general" "hi" ≠ encodeSend ("#" ++ "general") "hi") :=
  ⟨by decide, c2_normalization_amended "general" "" "hi" (by decide)⟩

/-- Claim C4: for a single incoming PRIVMSG line with three registered
message handlers of which the second raises, all three handlers are
invoked, in registration order (the result threads the state through
handler 1, then 2, then 3), and the dispatcher returns normally: the
raised flag of the second handler has no effect on the outcome. -/
theorem c4_handler_isolation {σ : Type}
    (h1 h2 h3 : String → String → String → σ → σ × Bool) (st : σ)
    (hraise : (h2 "alice" "#chan" "hello" (h1 "alice" "#chan" "hello" st).1).2 = true) :
    parseLineDispatch (Handlers.mk [h1, h2, h3] [] [] [] [] [] [] [])
        ":alice PRIVMSG #chan :hello" st =
      (h3 "alice" "#chan" "hello"
        (h2 "alice" "#chan" "hello" (h1 "alice" "#chan" "hello" st).1).1).1 := by
  have hstrip : pyStripL (":alice PRIVMSG #chan :hello" : String).data =
      (":alice PRIVMSG #chan :hello" : String).data := by decide
  have hp : parsedEventL ((":alice PRIVMSG #chan :hello" : String).data) =
      some (Event.message "alice" "#chan" "hello") := by decide
  unfold parseLineDispatch dispatchStripped
  rw [hstrip]
  have hne : ((":alice PRIVMSG #chan :hello" : String).data).isEmpty = false := by decide
  rw [hne]
  simp only [Bool.false_eq_true, if_false]
  rw [dispatchParsed_eq]
  rw [hp]
  simp [fireEvent, fire3, fire1, List.foldl]

theorem c4_handler_isolation_witness :
    parseLineDispatch (Handlers.mk [wH 1, wH 2, wH 3] [] [] [] [] [] [] [])
        ":alice PRIVMSG #chan :hello" ([] : List Nat) = [1, 2, 3] :=
  (c4_handler_isolation (wH 1) (wH 2) (wH 3) [] (by decide)).trans (by decide)

/-- Claim C5: against a scripted transport delivering a banner, the 001
welcome line for alice, and the 376 end-of-MOTD line, `connect` terminates
returning success (`authenticated = true`) with the identity set to
"alice". -/
theorem c5_handshake :
    connectModel ["banner",
        ":server 001 alice :Welcome to ClawSwarm, alice!",
        ":server 376 alice :End of MOTD"] =
      some (ConnState.mk (some "alice") true) := by
  decide

/-- Claim C8: a channel message whose channel is absent from the mapping is
dropped in both directions: a SwarmIRC Message whose target reverse-resolves
to no Discord channel produces no Discord send, and a Discord message whose
channel id is not in the mapping produces no SwarmIRC send. -/
theorem c8_unmapped_drop (bridged : List (Nat × String)) (selfName : Option String)
    (getChannel : Nat → Bool) (sender target content : String) (m : DMessage)
    (h1 : lookupByValue bridged (String.mk (target.data.drop 1)) = none)
    (h2 : dictLookup bridged m.channelId = none) :
    onSwarmMessage bridged selfName getChannel sender target content = none ∧
    onDiscordMessage bridged m = none := by
  constructor
  · simp only [List.drop_one] at h1
    unfold onSwarmMessage
    split_ifs <;> simp [h1]
  · simp [onDiscordMessage, onMessageParamCount]

theorem c8_unmapped_drop_witness :
    lookupByValue [(5, "general")] (String.mk (("#nomatch" : String).data.drop 1)) = none ∧
    dictLookup [(5, "general")] 7 = none ∧
    (onSwarmMessage [(5, "general")] (some "me") (fun _ => true) "alice" "#nomatch" "hi" = none ∧
     onDiscordMessage [(5, "general")] (DMessage.mk false "bob" true 7 "hi") = none) :=
  ⟨by decide, by decide,
   c8_unmapped_drop [(5, "general")] (some "me") (fun _ => true) "alice" "#nomatch" "hi"
     (DMessage.mk false "bob" true 7 "hi") (by decide) (by decide)⟩

/-- Claim C9: with no websocket handle, every action method sends nothing
on the wire (and, being a total function, returns without raising), while
`join` and `part` still update the local membership set with the
normalized channel name. -/
theorem c9_offline_actions (c : Client) (hws : c.ws = false)
    (channel reason target message nick queryType command description topic : String) :
    (c.join channel).sent = c.sent ∧
    (c.join channel).channels = setAdd c.channels (normChan channel) ∧
    (c.part channel reason).sent = c.sent ∧
    (c.part channel reason).channels = setDiscard c.channels (normChan channel) ∧
    (c.send target message).sent = c.sent ∧
    (c.who channel).sent = c.sent ∧
    (c.whois nick).sent = c.sent ∧
    c.listChannels.sent = c.sent ∧
    (c.query nick queryType).sent = c.sent ∧
    (c.registerCommand command description).sent = c.sent ∧
    (c.setTopic channel topic).sent = c.sent := by
  simp [Client.join, Client.part, Client.send, Client.who, Client.whois,
    Client.listChannels, Client.query, Client.registerCommand, Client.setTopic,
    Client.sendRaw, hws]

theorem c9_offline_actions_witness :
    (Client.mk false ["#x"] []).ws = false ∧
    (((Client.mk false ["#x"] []).join "general").sent = [] ∧
     ((Client.mk false ["#x"] []).join "general").channels = setAdd ["#x"] (normChan "general") ∧
     ((Client.mk false ["#x"] []).part "general" "bye").sent = [] ∧
     ((Client.mk false ["#x"] []).part "general" "bye").channels =
       setDiscard ["#x"] (normChan "general") ∧
     ((Client.mk false ["#x"] []).send "#x" "hi").sent = [] ∧
     ((Client.mk false ["#x"] []).who "general").sent = [] ∧
     ((Client.mk false ["#x"] []).whois "bob").sent = [] ∧
     (Client.mk false ["#x"] []).listChannels.sent = [] ∧
     ((Client.mk false ["#x"] []).query "bob" "CAPABILITIES").sent = [] ∧
     ((Client.mk false ["#x"] []).registerCommand "help" "desc").sent = [] ∧
     ((Client.mk false ["#x"] []).setTopic "general" "topic").sent = []) :=
  ⟨rfl, c9_offline_actions (Client.mk false ["#x"] []) rfl
    "general" "bye" "#x" "hi" "bob" "CAPABILITIES" "help" "desc" "topic"⟩

/-- Claim C3: for every malformed line — no `:sender COMMAND params` match,
an unknown command, or a known trailing-parameter command whose params do
not match — parsing produces no structured event, and dispatch invokes
only the raw handlers (the model is a total function, so nothing can be
raised out of the parse/dispatch routine). -/
theorem c3_malformed_raw_only (line : String)
    (h : reOuter (pyStripL line.data) = none
       ∨ (∃ pfx command params, reOuter (pyStripL line.data) = some (pfx, command, params) ∧
            command ≠ "PRIVMSG".data ∧ command ≠ "JOIN".data ∧ command ≠ "PART".data ∧
            command ≠ "QUERY".data ∧ command ≠ "CMD".data)
       ∨ (∃ pfx command params, reOuter (pyStripL line.data) = some (pfx, command, params) ∧
            (command = "PRIVMSG".data ∨ command = "QUERY".data ∨ command = "CMD".data) ∧
            reTrailing params = none)) :
    parsedEvent line = none ∧
    ∀ (σ : Type) (H : Handlers σ) (st : σ),
      parseLineDispatch H line st =
        if (pyStripL line.data).isEmpty then st
        else fire1 H.raw (String.mk (pyStripL line.data)) st := by
  have hnone : parsedEventL (pyStripL line.data) = none := by
    rcases h with hO | ⟨pfx, command, params, hO, h1, h2, h3, h4, h5⟩
      | ⟨pfx, command, params, hO, hc, hT⟩
    · simp [parsedEventL, hO]
    · simp [parsedEventL, hO, h1, h2, h3, h4, h5]
    · rcases hc with hc | hc | hc <;> subst hc
      · simp [parsedEventL, hO, hT]
      · simp [parsedEventL, hO, hT,
          show ("QUERY" : String).data ≠ ("PRIVMSG" : String).data from by decide,
          show ("QUERY" : String).data ≠ ("JOIN" : String).data from by decide,
          show ("QUERY" : String).data ≠ ("PART" : String).data from by decide]
      · simp [parsedEventL, hO, hT,
          show ("CMD" : String).data ≠ ("PRIVMSG" : String).data from by decide,
          show ("CMD" : String).data ≠ ("JOIN" : String).data from by decide,
          show ("CMD" : String).data ≠ ("PART" : String).data from by decide,
          show ("CMD" : String).data ≠ ("QUERY" : String).data from by decide]
  constructor
  · simp [parsedEvent, hnone]
  · intro σ H st
    unfold parseLineDispatch dispatchStripped
    cases hE : (pyStripL line.data).isEmpty
    · simp only [Bool.false_eq_true, if_false]
      rw [dispatchParsed_eq, hnone]
    · simp

theorem c3_malformed_raw_only_witness :
    reOuter (pyStripL ("PING hello" : String).data) = none ∧
    (parsedEvent "PING hello" = none ∧
     ∀ (σ : Type) (H : Handlers σ) (st : σ),
       parseLineDispatch H "PING hello" st =
         if (pyStripL ("PING hello" : String).data).isEmpty then st
         else fire1 H.raw (String.mk (pyStripL ("PING hello" : String).data)) st) :=
  ⟨by decide, c3_malformed_raw_only "PING hello" (Or.inl (by decide))⟩

/-- Claim C6 (counterexample): the claim quantifies over every non-empty
inbound line, but a whitespace-only line is non-empty and fires no
handlers at all — not even the raw handlers — because `_parse_line`
strips the line and returns before firing anything. -/
theorem c6_dispatch_shape_counterexample :
    (" " : String) ≠ "" ∧ firedEvents " " = [] := by
  constructor
  · decide
  · decide

/-- Claim C6 (amended): for every inbound line that is non-blank after
stripping, the raw handlers fire first and at most one structured event
kind fires after them (none when the line does not match the grammar);
whitespace-only lines fire nothing at all.  The second conjunct records
that the structured event is never a raw event. -/
theorem c6_dispatch_shape_amended (line : String) :
    firedEvents line =
      (if (pyStripL line.data).isEmpty then []
       else Event.raw (String.mk (pyStripL line.data)) ::
         (parsedEventL (pyStripL line.data)).toList) ∧
    ∀ e, parsedEventL (pyStripL line.data) = some e → ∀ s, e ≠ Event.raw s := by
  constructor
  · cases hE : (pyStripL line.data).isEmpty
    · unfold firedEvents parseLineDispatch dispatchStripped
      simp only [hE, Bool.false_eq_true, if_false]
      rw [dispatchParsed_eq]
      have hraw : fire1 logH.raw (String.mk (pyStripL line.data)) [] =
          [Event.raw (String.mk (pyStripL line.data))] := rfl
      rw [hraw]
      cases hp : parsedEventL (pyStripL line.data) with
      | none => rfl
      | some ev =>
        cases ev with
        | message s t m => rfl
        | join n c => rfl
        | part n c => rfl
        | query s q d => rfl
        | cmd s c a => rfl
        | raw r => exact absurd rfl (parsedEventL_ne_raw _ _ hp r)
    · simp [firedEvents, parseLineDispatch, hE]
  · exact fun e he s => parsedEventL_ne_raw _ e he s

theorem reOuter_single_space (pfx command rest : List Char)
    (hp0 : pfx ≠ []) (hp : ∀ c ∈ pfx, pyWs c = false)
    (hc0 : command ≠ []) (hcw : ∀ c ∈ command, pyWs c = false)
    (hr0 : ∀ c, rest.head? = some c → pyWs c = false)
    (hrn : ∀ c ∈ rest, c ≠ '\n') :
    reOuter (':' :: (pfx ++ ' ' :: (command ++ ' ' :: rest))) = some (pfx, command, rest) := by
  have hpe : pfx.isEmpty = false := by
    cases pfx with
    | nil => exact absurd rfl hp0
    | cons a l => rfl
  have hce : command.isEmpty = false := by
    cases command with
    | nil => exact absurd rfl hc0
    | cons a l => rfl
  obtain ⟨c0, ctl, hcmd⟩ : ∃ c0 ctl, command = c0 :: ctl := by
    cases command with
    | nil => exact absurd rfl hc0
    | cons a l => exact ⟨a, l, rfl⟩
  have hc0w : pyWs c0 = false := hcw c0 (by simp [hcmd])
  have t1 : (pfx ++ ' ' :: (command ++ ' ' :: rest)).takeWhile (fun c => !pyWs c) = pfx :=
    takeWhile_append_cons _ _ _ _ (fun x hx => by simp [hp x hx]) (by decide)
  have t2 : (pfx ++ ' ' :: (command ++ ' ' :: rest)).dropWhile (fun c => !pyWs c) =
      ' ' :: (command ++ ' ' :: rest) :=
    dropWhile_append_cons _ _ _ _ (fun x hx => by simp [hp x hx]) (by decide)
  have t3 : (' ' :: (command ++ ' ' :: rest)).takeWhile pyWs = [' '] := by
    rw [hcmd]
    simp [List.takeWhile_cons, hc0w, show pyWs ' ' = true from by decide]
  have t4 : (' ' :: (command ++ ' ' :: rest)).dropWhile pyWs = command ++ ' ' :: rest := by
    rw [hcmd]
    simp [List.dropWhile_cons, hc0w, show pyWs ' ' = true from by decide]
  have t5 : (command ++ ' ' :: rest).takeWhile (fun c => !pyWs c) = command :=
    takeWhile_append_cons _ _ _ _ (fun x hx => by simp [hcw x hx]) (by decide)
  have t6 : (command ++ ' ' :: rest).dropWhile (fun c => !pyWs c) = ' ' :: rest :=
    dropWhile_append_cons _ _ _ _ (fun x hx => by simp [hcw x hx]) (by decide)
  have t7 : (' ' :: rest).takeWhile pyWs = [' '] := by
    cases hrest : rest with
    | nil => decide
    | cons r0 rtl =>
      have hw : pyWs r0 = false := hr0 r0 (by rw [hrest]; rfl)
      simp [List.takeWhile_cons, hw, show pyWs ' ' = true from by decide]
  have t8 : (' ' :: rest).dropWhile pyWs = rest := by
    cases hrest : rest with
    | nil => decide
    | cons r0 rtl =>
      have hw : pyWs r0 = false := hr0 r0 (by rw [hrest]; rfl)
      simp [List.dropWhile_cons, hw, show pyWs ' ' = true from by decide]
  have t9 : rest.takeWhile (fun c => !(c == '\n')) = rest :=
    takeWhile_of_all _ _ (fun x hx => by simp [hrn x hx])
  simp only [reOuter, t1, t2, t3, t4, t5, t6, t7, t8, t9, hpe, hce]
  simp

theorem reTrailing_colon (tok body : List Char)
    (ht0 : tok ≠ []) (htw : ∀ c ∈ tok, pyWs c = false) :
    reTrailing (tok ++ ' ' :: ':' :: body) = some (tok, body) := by
  have hte : tok.isEmpty = false := by
    cases tok with
    | nil => exact absurd rfl ht0
    | cons a l => rfl
  have t1 : (tok ++ ' ' :: ':' :: body).takeWhile (fun c => !pyWs c) = tok :=
    takeWhile_append_cons _ _ _ _ (fun x hx => by simp [htw x hx]) (by decide)
  have t2 : (tok ++ ' ' :: ':' :: body).dropWhile (fun c => !pyWs c) = ' ' :: ':' :: body :=
    dropWhile_append_cons _ _ _ _ (fun x hx => by simp [htw x hx]) (by decide)
  have t3 : (' ' :: ':' :: body).takeWhile pyWs = [' '] := by
    simp [List.takeWhile_cons, show pyWs ' ' = true from by decide,
      show pyWs ':' = false from by decide]
  have t4 : (' ' :: ':' :: body).dropWhile pyWs = ':' :: body := by
    simp [List.dropWhile_cons, show pyWs ' ' = true from by decide,
      show pyWs ':' = false from by decide]
  simp only [reTrailing, t1, t2, t3, t4, hte]
  simp

/-- Claim C7 (counterexample): the body delivered to message handlers does
not include content past an embedded newline.  For the PRIVMSG line with
body `"hello\nworld"`, the outer params group (whose `.` does not match a
newline) stops before the `'\n'`, so handlers receive body `"hello"`. -/
theorem c7_privmsg_counterexample :
    parsedEvent ":nick PRIVMSG #general :hello\nworld" =
      some (Event.message "nick" "#general" "hello") ∧
    Event.message "nick" "#general" "hello" ≠
      Event.message "nick" "#general" "hello\nworld" := by
  constructor
  · decide
  · decide

/-- Claim C7 (amended): for a single-spaced line
`:prefix PRIVMSG target :body` whose prefix and target are non-empty and
whitespace-free and whose body contains no newline and does not end in
whitespace, message handlers receive the substring of the prefix before
the first `'!'` as sender, the target token as target, and as body
everything after the colon following the target — including further
colons and internal whitespace.  (Content after an embedded newline is
discarded by the non-DOTALL outer params group, and trailing whitespace
is removed by the initial `line.strip()`, hence the restrictions.) -/
theorem c7_privmsg_amended (pfx target body : List Char)
    (hp0 : pfx ≠ []) (hp : ∀ c ∈ pfx, pyWs c = false)
    (ht0 : target ≠ []) (ht : ∀ c ∈ target, pyWs c = false)
    (hb : ∀ c ∈ body, c ≠ '\n')
    (hbl : ∀ c, body.getLast? = some c → pyWs c = false) :
    parsedEvent (String.mk (':' :: (pfx ++ ' ' :: (("PRIVMSG" : String).data ++
        ' ' :: (target ++ ' ' :: ':' :: body))))) =
      some (Event.message (String.mk (splitBang pfx)) (String.mk target) (String.mk body)) := by
  have hlastval :
      (':' :: (pfx ++ ' ' :: (("PRIVMSG" : String).data ++
        ' ' :: (target ++ ' ' :: ':' :: body)))).getLast? = (':' :: body).getLast? := by
    show ((':' :: pfx) ++ ' ' :: (("PRIVMSG" : String).data ++
      ' ' :: (target ++ ' ' :: ':' :: body))).getLast? = _
    rw [List.getLast?_append_cons]
    show ((' ' :: ("PRIVMSG" : String).data) ++ ' ' :: (target ++ ' ' :: ':' :: body)).getLast? = _
    rw [List.getLast?_append_cons]
    show ((' ' :: target) ++ ' ' :: ':' :: body).getLast? = _
    rw [List.getLast?_append_cons]
    rw [List.getLast?_cons_cons]
  have hlast : ∀ c, (':' :: (pfx ++ ' ' :: (("PRIVMSG" : String).data ++
      ' ' :: (target ++ ' ' :: ':' :: body)))).getLast? = some c → pyWs c = false := by
    intro c hc
    rw [hlastval] at hc
    cases body with
    | nil =>
      have : c = ':' := by simpa using hc.symm
      subst this
      decide
    | cons b bs =>
      rw [List.getLast?_cons_cons] at hc
      exact hbl c hc
  have hhead : ∀ c, (':' :: (pfx ++ ' ' :: (("PRIVMSG" : String).data ++
      ' ' :: (target ++ ' ' :: ':' :: body)))).head? = some c → pyWs c = false := by
    intro c hc
    have : c = ':' := by simpa using hc.symm
    subst this
    decide
  have hstrip : pyStripL (':' :: (pfx ++ ' ' :: (("PRIVMSG" : String).data ++
      ' ' :: (target ++ ' ' :: ':' :: body)))) =
      ':' :: (pfx ++ ' ' :: (("PRIVMSG" : String).data ++
        ' ' :: (target ++ ' ' :: ':' :: body))) :=
    pyStripL_eq_self _ hhead hlast
  have hO : reOuter (':' :: (pfx ++ ' ' :: (("PRIVMSG" : String).data ++
      ' ' :: (target ++ ' ' :: ':' :: body)))) =
      some (pfx, ("PRIVMSG" : String).data, target ++ ' ' :: ':' :: body) := by
    refine reOuter_single_space pfx _ _ hp0 hp (by decide) (by decide) ?_ ?_
    · intro c hc
      cases target with
      | nil => exact absurd rfl ht0
      | cons t0 ttl =>
        have : c = t0 := by simpa using hc.symm
        subst this
        exact ht c (by simp)
    · intro c hc
      rcases List.mem_append.mp hc with hin | hin
      · intro hceq
        subst hceq
        exact absurd (ht _ hin) (by decide)
      · rcases hin with _ | ⟨_, hin⟩
        · decide
        · rcases hin with _ | ⟨_, hin⟩
          · decide
          · exact hb c hin
  have hT : reTrailing (target ++ ' ' :: ':' :: body) = some (target, body) :=
    reTrailing_colon target body ht0 ht
  unfold parsedEvent
  rw [show (String.mk (':' :: (pfx ++ ' ' :: (("PRIVMSG" : String).data ++
    ' ' :: (target ++ ' ' :: ':' :: body))))).data =
    ':' :: (pfx ++ ' ' :: (("PRIVMSG" : String).data ++
      ' ' :: (target ++ ' ' :: ':' :: body))) from rfl]
  rw [hstrip]
  simp only [List.isEmpty_cons, Bool.false_eq_true, if_false]
  unfold parsedEventL
  rw [hO]
  simp [hT]

theorem c7_privmsg_witness :
    (("nick!user" : String).data ≠ [] ∧
     (∀ c ∈ ("nick!user" : String).data, pyWs c = false) ∧
     ("#general" : String).data ≠ [] ∧
     (∀ c ∈ ("#general" : String).data, pyWs c = false) ∧
     (∀ c ∈ ("hello :world" : String).data, c ≠ '\n') ∧
     (∀ c, ("hello :world" : String).data.getLast? = some c → pyWs c = false)) ∧
    parsedEvent (String.mk (':' :: (("nick!user" : String).data ++
        ' ' :: (("PRIVMSG" : String).data ++
        ' ' :: (("#general" : String).data ++
        ' ' :: ':' :: ("hello :world" : String).data))))) =
      some (Event.message "nick" "#general" "hello :world") :=
  ⟨⟨by decide, by decide, by decide, by decide, by decide, by decide⟩,
   (c7_privmsg_amended ("nick!user" : String).data ("#general" : String).data
      ("hello :world" : String).data (by decide) (by decide) (by decide) (by decide)
      (by decide) (by decide)).trans (by decide)⟩

theorem authLoop_term (pre : List String) (term : String) (rest : List String)
    (st : ConnState) (h1 : ∀ l ∈ pre, hasTermB l = false) (h2 : hasTermB term = true) :
    authLoop (pre ++ term :: rest) st = some (List.foldl stepLine st (pre ++ [term])) := by
  induction pre generalizing st with
  | nil =>
    simp only [List.nil_append, authLoop, h2, if_true, List.foldl]
  | cons x xs ih =>
    have hx : hasTermB x = false := h1 x (by simp)
    simp only [List.cons_append, authLoop, hx, Bool.false_eq_true, if_false, List.foldl]
    exact ih (stepLine st x) (fun l hl => h1 l (List.mem_cons_of_mem x hl))

theorem stepLine_authenticated (st : ConnState) (msg : String) :
    (stepLine st msg).authenticated = (st.authenticated || has001B msg) := by
  unfold stepLine
  cases h : has001B msg
  · simp
  · simp only [if_true]
    cases searchWelcomeL (pyStripL msg.data) <;> simp

theorem foldl_stepLine_authenticated (ls : List String) (st : ConnState) :
    (List.foldl stepLine st ls).authenticated =
      (st.authenticated || ls.any (fun l => has001B l)) := by
  induction ls generalizing st with
  | nil => simp
  | cons x xs ih =>
    simp only [List.foldl, List.any_cons]
    rw [ih, stepLine_authenticated, Bool.or_assoc]

theorem foldl_stepLine_name (ls : List String) (st : ConnState)
    (h : ∀ l ∈ ls, has001B l = true → searchWelcomeL (pyStripL l.data) = none) :
    (List.foldl stepLine st ls).name = st.name := by
  induction ls generalizing st with
  | nil => rfl
  | cons x xs ih =>
    have hx : (stepLine st x).name = st.name := by
      unfold stepLine
      cases h001 : has001B x
      · simp
      · simp only [if_true]
        rw [h x (by simp) h001]
    simp only [List.foldl]
    rw [ih _ (fun l hl => h l (by simp [hl])), hx]

/-- Claim C10: `connect` returns true exactly when some line received after
AUTH, no later than the first line containing `"376"` or `"422"`, contains
the substring `"001"` anywhere (the check is plain containment, not a
parse of the numeric position); and when every such `"001"` line lacks the
`Welcome to ClawSwarm, <name>!` pattern, `authenticated` is the returned
value while the identity stays `None`. -/
theorem c10_connect_result (banner term : String) (pre rest : List String)
    (h1 : ∀ l ∈ pre, hasTermB l = false) (h2 : hasTermB term = true) :
    ∃ st : ConnState,
      connectModel (banner :: (pre ++ term :: rest)) = some st ∧
      (st.authenticated = true ↔ ∃ l ∈ pre ++ [term], has001B l = true) ∧
      ((∀ l ∈ pre ++ [term], has001B l = true → searchWelcomeL (pyStripL l.data) = none) →
        st.name = none) := by
  refine ⟨List.foldl stepLine (ConnState.mk none false) (pre ++ [term]), ?_, ?_, ?_⟩
  · unfold connectModel
    exact authLoop_term pre term rest (ConnState.mk none false) h1 h2
  · rw [foldl_stepLine_authenticated]
    simp only [Bool.false_or, List.any_eq_true, List.mem_append, List.mem_singleton]
  · intro h
    rw [foldl_stepLine_name _ _ h]

theorem c10_connect_result_witness :
    ((∀ l ∈ [":s 001 hi"], hasTermB l = false) ∧ hasTermB ":s 376 done" = true) ∧
    ∃ st : ConnState,
      connectModel ("banner" :: ([":s 001 hi"] ++ ":s 376 done" :: [])) = some st ∧
      (st.authenticated = true ↔ ∃ l ∈ [":s 001 hi"] ++ [":s 376 done"], has001B l = true) ∧
      ((∀ l ∈ [":s 001 hi"] ++ [":s 376 done"],
          has001B l = true → searchWelcomeL (pyStripL l.data) = none) →
        st.name = none) :=
  ⟨⟨by decide, by decide⟩,
   c10_connect_result "banner" ":s 376 done" [":s 001 hi"] [] (by decide) (by decide)⟩

theorem c6_dispatch_shape_witness :
    firedEvents ":a JOIN #x" =
      (if (pyStripL ((":a JOIN #x" : String).data)).isEmpty then []
       else Event.raw (String.mk (pyStripL ((":a JOIN #x" : String).data))) ::
         (parsedEventL (pyStripL ((":a JOIN #x" : String).data))).toList) :=
  (c6_dispatch_shape_amended ":a JOIN #x").1
